import Mathlib

/-!
# Verification of the legacy-TMS login flow

Shallow embedding of the auth domain of the repository
(`server/app/domain/auth`): schemas, repository lookup, `AuthService`
orchestration and the endpoint adapter's message-to-status dispatch,
together with proofs of the specified behavioural properties.

Conventions of the embedding:
* The Oracle session is modelled by `DbBehavior`: either a pure list of
  rows (the `T_USER` table) or a raised database exception carrying the
  Python type name of the exception.
* Randomness of `secrets.token_urlsafe(32)` is made explicit: the 32
  random bytes are an input of the token generator.
* Exceptions are values of `AuthError`; the `try/except` structure of
  `AuthService.execute` becomes the explicit dispatch to `handle_error`.
* `execute` additionally returns the argument the repository lookup was
  invoked with (`none` when the lookup never ran), so that "the store
  lookup is never invoked" is a statement about the embedding.
-/

/-- Python Unicode whitespace, as stripped by `str.strip()`: TAB..CR,
FS..US, space, NEL, NBSP, Ogham space, the U+2000..U+200A spaces, line
and paragraph separators, narrow/medium math spaces, ideographic space. -/
def pyIsSpace (c : Char) : Bool :=
  let n := c.toNat
  (9 <= n && n <= 13) || (28 <= n && n <= 31) || n == 32 ||
  n == 0x85 || n == 0xa0 || n == 0x1680 ||
  (0x2000 <= n && n <= 0x200a) || n == 0x2028 || n == 0x2029 ||
  n == 0x202f || n == 0x205f || n == 0x3000

/-- `not s.strip()` in Python: true iff every character of `s` is
whitespace (in particular for the empty string). -/
def isBlank (s : String) : Bool :=
  s.toList.all pyIsSpace

/-- `sub.isPrefixOf hay ∨ sub occurs after dropping the head of hay`:
substring occurrence on character lists. -/
def listContainsSub (hay sub : List Char) : Bool :=
  sub.isPrefixOf hay ||
    match hay with
    | [] => false
    | _ :: t => listContainsSub t sub

/-- Python's `sub in hay` substring test (for non-empty `sub`). -/
def strContains (hay sub : String) : Bool :=
  listContainsSub hay.toList sub.toList

/-- `LoginRequest` (schemas): username and password strings.  Pydantic's
length bounds are enforced before the endpoint body runs and play no
role in the service-level claims. -/
structure LoginRequest where
  username : String
  password : String
deriving Repr, DecidableEq

/-- `UserRecord` (schemas): one row of the legacy user table. -/
structure UserRecord where
  user_id : String
  password : String
  user_name : String
deriving Repr, DecidableEq

/-- `LoginResponse` (schemas): body of the success response. -/
structure LoginResponse where
  user_id : String
  user_name : String
  token : String
  message : String
deriving Repr, DecidableEq

/-- Modelled from the spec: `ServiceResult` lives in
`server.app.shared.types`, which is not part of the sources; the spec
describes it as a tagged success/failure envelope carrying either a
payload or an error message plus free-form metadata. -/
structure ServiceResult (T : Type) where
  success : Bool
  data : Option T
  error : Option String
  metadata : List (String × String)
deriving Repr, DecidableEq

/-- Modelled from the spec: `ServiceResult.ok` builds the success
envelope (payload set, no error). -/
def ServiceResult.ok {T : Type} (payload : T)
    (metadata : List (String × String)) : ServiceResult T :=
  ⟨true, some payload, none, metadata⟩

/-- Modelled from the spec: `ServiceResult.fail` builds the failure
envelope (error message set, no payload). -/
def ServiceResult.fail {T : Type} (msg : String)
    (metadata : List (String × String)) : ServiceResult T :=
  ⟨false, none, some msg, metadata⟩

/-- Modelled from the spec: the exception taxonomy.
`server.app.shared.exceptions` is not part of the sources; the spec's
error-handling design names validation failures, not-found failures and
unexpected failures, each carrying a message (for unexpected failures we
also carry the Python type name used by `handle_error`'s metadata). -/
inductive AuthError where
  | validation (msg : String)
  | notFound (msg : String)
  | unexpected (typeName : String)
deriving Repr, DecidableEq

/-- `type(error).__name__` as used in `handle_error`'s metadata. -/
def AuthError.typeName : AuthError → String
  | .validation _ => "ValidationException"
  | .notFound _ => "NotFoundException"
  | .unexpected n => n

/-- The Oracle session, as the service observes it: either a working
store holding the rows of `T_USER`, or a raised database exception with
the given Python type name. -/
inductive DbBehavior where
  | ok (store : List UserRecord)
  | fail (excName : String)

/-- `AuthRepository.find_user_by_username`: one equality lookup
`WHERE USER_ID = :username`, `fetchone` on the result.  A database
exception is logged and re-raised (`Except.error`); an empty result is
the explicit absence `none`, not an error. -/
def find_user_by_username (db : DbBehavior) (username : String) :
    Except String (Option UserRecord) :=
  match db with
  | .fail e => .error e
  | .ok store => .ok (store.find? (fun r => r.user_id == username))

/-- `AuthService.validate_request`: rejects a blank username, then a
blank password. -/
def validate_request (req : LoginRequest) : Option AuthError :=
  if isBlank req.username then some (.validation "사용자 ID는 빈 문자열일 수 없습니다")
  else if isBlank req.password then some (.validation "비밀번호는 빈 문자열일 수 없습니다")
  else none

/-- `AuthService._verify_password`: the placeholder plaintext equality
comparison. -/
def verify_password (input_password stored_password : String) : Bool :=
  input_password == stored_password

/-- `AuthService.handle_error`: a `ValidationException` keeps its own
message, a `NotFoundException` is replaced by the deliberately vague
credentials message, anything else by the generic failure message; the
metadata records the exception type name and the username. -/
def handle_error (error : AuthError) (req : LoginRequest) :
    ServiceResult LoginResponse :=
  let error_message :=
    match error with
    | .validation m => m
    | .notFound _ => "사용자 ID 또는 비밀번호가 올바르지 않습니다"
    | .unexpected _ => "로그인 처리 중 오류가 발생했습니다"
  ServiceResult.fail error_message
    [("error_type", error.typeName), ("username", req.username)]

/-- `AuthService._generate_temp_token` minus the randomness:
`"temp_token_" + base64.urlsafe (stripped) of the 32 random bytes`.
`urlsafeNoPad` is defined below; `tokenBytes` are the bytes
`secrets.token_urlsafe(32)` drew from the OS. -/
def toSextets : List Nat → List Nat
  | [] => []
  | [b1] => [b1 / 4, b1 % 4 * 16]
  | [b1, b2] => [b1 / 4, b1 % 4 * 16 + b2 / 16, b2 % 16 * 4]
  | b1 :: b2 :: b3 :: rest =>
      b1 / 4 :: (b1 % 4 * 16 + b2 / 16) :: (b2 % 16 * 4 + b3 / 64) ::
        b3 % 64 :: toSextets rest

/-- The base64url alphabet (`A-Z a-z 0-9 - _`), indexed by sextet. -/
def b64urlChar (n : Nat) : Char :=
  if n < 26 then Char.ofNat (65 + n)
  else if n < 52 then Char.ofNat (97 + (n - 26))
  else if n < 62 then Char.ofNat (48 + (n - 52))
  else if n = 62 then '-'
  else '_'

/-- `base64.urlsafe_b64encode` with the `=` padding stripped, as
`secrets.token_urlsafe` produces it. -/
def urlsafeNoPad (bytes : List Nat) : String :=
  ⟨(toSextets bytes).map b64urlChar⟩

/-- `AuthService._generate_temp_token`, with the 32 random bytes drawn
by `secrets.token_urlsafe(32)` made an explicit input. -/
def generate_temp_token (tokenBytes : List Nat) : String :=
  "temp_token_" ++ urlsafeNoPad tokenBytes

/-- `AuthService.execute`.  Mirrors the linear flow: validate, look the
user up, compare the password, issue the token, assemble the envelope;
every raised exception is routed to `handle_error`.  The second
component records the argument `find_user_by_username` was invoked with
(`none` when it never ran). -/
def execute (db : DbBehavior) (req : LoginRequest) (tokenBytes : List Nat) :
    ServiceResult LoginResponse × Option String :=
  match validate_request req with
  | some e => (handle_error e req, none)
  | none =>
    match find_user_by_username db req.username with
    | .error excName => (handle_error (.unexpected excName) req, some req.username)
    | .ok none =>
        (handle_error (.notFound ("사용자를 찾을 수 없습니다: " ++ req.username)) req,
          some req.username)
    | .ok (some user_record) =>
        if verify_password req.password user_record.password then
          let token := generate_temp_token tokenBytes
          (ServiceResult.ok
            { user_id := user_record.user_id
              user_name := user_record.user_name
              token := token
              message := "로그인 성공" }
            [("username", req.username), ("user_id", user_record.user_id)],
           some req.username)
        else
          (handle_error (.validation "비밀번호가 일치하지 않습니다") req, some req.username)

/-- The endpoint's answer: a 200 body or an `HTTPException`. -/
inductive LoginHttp where
  | ok (body : LoginResponse)
  | err (statusCode : Nat) (detail : String)
deriving Repr, DecidableEq

/-- The result-handling part of the `login` endpoint: on failure, pick
the HTTP status by substring matching on the envelope's error message
(defaulted to the generic message when absent); on success return the
payload with 200.  (A success envelope without data cannot leave
`execute`; the adapter would hand `None` to the response model, a 500 —
represented by the final branch.) -/
def login (result : ServiceResult LoginResponse) : LoginHttp :=
  if !result.success then
    let error_message := result.error.getD "로그인 처리 중 오류가 발생했습니다"
    if strContains error_message "찾을 수 없습니다" ||
        strContains error_message "일치하지 않습니다" ||
        strContains error_message "올바르지 않습니다" then
      .err 401 error_message
    else if strContains error_message "빈 문자열" then
      .err 400 error_message
    else
      .err 500 error_message
  else
    match result.data with
    | some body => .ok body
    | none => .err 500 "Internal Server Error"

/-- The full pipeline the client observes: the endpoint adapter applied
to the service result. -/
def loginEndpoint (db : DbBehavior) (req : LoginRequest)
    (tokenBytes : List Nat) : LoginHttp :=
  login (execute db req tokenBytes).1

/-- Decoder for `toSextets`, used only to establish injectivity of the
encoding: groups of four sextets back to three bytes, a trailing pair or
triple back to the one or two bytes of a short final group. -/
def fromSextets : List Nat → List Nat
  | [] => []
  | [s1, s2] => [s1 * 4 + s2 / 16]
  | [s1, s2, s3] => [s1 * 4 + s2 / 16, s2 % 16 * 16 + s3 / 4]
  | s1 :: s2 :: s3 :: s4 :: rest =>
      (s1 * 4 + s2 / 16) :: (s2 % 16 * 16 + s3 / 4) :: (s3 % 4 * 64 + s4) ::
        fromSextets rest
  | [_] => []

/-- Index of a character in the base64url alphabet, inverse to
`b64urlChar` below 64. -/
def b64CharVal (c : Char) : Nat :=
  let n := c.toNat
  if 65 ≤ n ∧ n ≤ 90 then n - 65
  else if 97 ≤ n ∧ n ≤ 122 then n - 97 + 26
  else if 48 ≤ n ∧ n ≤ 57 then n - 48 + 52
  else if n = 45 then 62
  else 63

/-- The five error messages a failure envelope of `execute` can carry. -/
def failureMessages : List String :=
  ["사용자 ID는 빈 문자열일 수 없습니다",
   "비밀번호는 빈 문자열일 수 없습니다",
   "비밀번호가 일치하지 않습니다",
   "사용자 ID 또는 비밀번호가 올바르지 않습니다",
   "로그인 처리 중 오류가 발생했습니다"]

/-- The one-row store of the spec's scenarios:
`user001 / password123 / 홍길동`. -/
def sampleStore : List UserRecord :=
  [{ user_id := "user001", password := "password123", user_name := "홍길동" }]

/-- The endpoint's substring dispatch, as a function of the envelope's
error message alone: the three credential substrings give 401, the
empty-string substring gives 400, anything else 500. -/
def statusFor (m : String) : Nat :=
  if strContains m "찾을 수 없습니다" || strContains m "일치하지 않습니다" ||
      strContains m "올바르지 않습니다" then 401
  else if strContains m "빈 문자열" then 400
  else 500

theorem fromSextets_toSextets (bs : List Nat) (h : ∀ b ∈ bs, b < 256) :
    fromSextets (toSextets bs) = bs := by
  match bs with
  | [] => rfl
  | [b1] =>
    simp only [toSextets, fromSextets, List.cons.injEq, and_true]
    omega
  | [b1, b2] =>
    have hb2 : b2 < 256 := h b2 (by simp)
    simp only [toSextets, fromSextets, List.cons.injEq, and_true]
    omega
  | b1 :: b2 :: b3 :: rest =>
    have hb2 : b2 < 256 := h b2 (by simp)
    have hb3 : b3 < 256 := h b3 (by simp)
    have ih := fromSextets_toSextets rest (fun b hb => h b (by simp [hb]))
    simp only [toSextets, fromSextets, List.cons.injEq, ih, and_true]
    omega

theorem toSextets_lt_64 (bs : List Nat) (h : ∀ b ∈ bs, b < 256) :
    ∀ s ∈ toSextets bs, s < 64 := by
  match bs with
  | [] => simp [toSextets]
  | [b1] =>
    have hb1 : b1 < 256 := h b1 (by simp)
    intro s hs
    simp only [toSextets, List.mem_cons, List.not_mem_nil, or_false] at hs
    rcases hs with rfl | rfl <;> omega
  | [b1, b2] =>
    have hb1 : b1 < 256 := h b1 (by simp)
    have hb2 : b2 < 256 := h b2 (by simp)
    intro s hs
    simp only [toSextets, List.mem_cons, List.not_mem_nil, or_false] at hs
    rcases hs with rfl | rfl | rfl <;> omega
  | b1 :: b2 :: b3 :: rest =>
    have hb1 : b1 < 256 := h b1 (by simp)
    have hb2 : b2 < 256 := h b2 (by simp)
    have hb3 : b3 < 256 := h b3 (by simp)
    have ih := toSextets_lt_64 rest (fun b hb => h b (by simp [hb]))
    intro s hs
    simp only [toSextets, List.mem_cons] at hs
    rcases hs with rfl | rfl | rfl | rfl | hs
    · omega
    · omega
    · omega
    · omega
    · exact ih s hs

theorem b64CharVal_b64urlChar : ∀ i : Fin 64, b64CharVal (b64urlChar i.val) = i.val := by
  decide

theorem map_b64CharVal_map_b64urlChar (l : List Nat) (h : ∀ s ∈ l, s < 64) :
    (l.map b64urlChar).map b64CharVal = l := by
  induction l with
  | nil => simp
  | cons a t ih =>
    simp only [List.map_cons, List.cons.injEq]
    exact ⟨b64CharVal_b64urlChar ⟨a, h a (by simp)⟩,
      ih (fun s hs => h s (by simp [hs]))⟩

theorem urlsafeNoPad_inj (b1 b2 : List Nat) (h1 : ∀ b ∈ b1, b < 256)
    (h2 : ∀ b ∈ b2, b < 256) (he : urlsafeNoPad b1 = urlsafeNoPad b2) :
    b1 = b2 := by
  have hchars : (toSextets b1).map b64urlChar = (toSextets b2).map b64urlChar := by
    injection he
  have hsx : toSextets b1 = toSextets b2 := by
    have hmap := congrArg (List.map b64CharVal) hchars
    rwa [map_b64CharVal_map_b64urlChar _ (toSextets_lt_64 b1 h1),
      map_b64CharVal_map_b64urlChar _ (toSextets_lt_64 b2 h2)] at hmap
  have hfrom := congrArg fromSextets hsx
  rwa [fromSextets_toSextets b1 h1, fromSextets_toSextets b2 h2] at hfrom

theorem generate_temp_token_inj (b1 b2 : List Nat) (h1 : ∀ b ∈ b1, b < 256)
    (h2 : ∀ b ∈ b2, b < 256) (he : generate_temp_token b1 = generate_temp_token b2) :
    b1 = b2 := by
  apply urlsafeNoPad_inj b1 b2 h1 h2
  have hd := congrArg String.data he
  simp only [generate_temp_token, String.data_append] at hd
  exact String.ext (List.append_cancel_left hd)

theorem execute_blank_username (db : DbBehavior) (req : LoginRequest)
    (tb : List Nat) (hu : isBlank req.username = true) :
    execute db req tb =
      (ServiceResult.fail "사용자 ID는 빈 문자열일 수 없습니다"
        [("error_type", "ValidationException"), ("username", req.username)], none) := by
  simp [execute, validate_request, hu, handle_error, AuthError.typeName]

theorem execute_blank_password (db : DbBehavior) (req : LoginRequest)
    (tb : List Nat) (hu : isBlank req.username = false)
    (hp : isBlank req.password = true) :
    execute db req tb =
      (ServiceResult.fail "비밀번호는 빈 문자열일 수 없습니다"
        [("error_type", "ValidationException"), ("username", req.username)], none) := by
  simp [execute, validate_request, hu, hp, handle_error, AuthError.typeName]

theorem execute_db_error (excName : String) (req : LoginRequest) (tb : List Nat)
    (hu : isBlank req.username = false) (hp : isBlank req.password = false) :
    execute (.fail excName) req tb =
      (ServiceResult.fail "로그인 처리 중 오류가 발생했습니다"
        [("error_type", excName), ("username", req.username)], some req.username) := by
  simp [execute, validate_request, hu, hp, find_user_by_username, handle_error,
    AuthError.typeName]

theorem execute_user_absent (store : List UserRecord) (req : LoginRequest)
    (tb : List Nat) (hu : isBlank req.username = false)
    (hp : isBlank req.password = false)
    (hf : store.find? (fun r => r.user_id == req.username) = none) :
    execute (.ok store) req tb =
      (ServiceResult.fail "사용자 ID 또는 비밀번호가 올바르지 않습니다"
        [("error_type", "NotFoundException"), ("username", req.username)], some req.username) := by
  simp [execute, validate_request, hu, hp, find_user_by_username, hf, handle_error,
    AuthError.typeName]

theorem execute_wrong_password (store : List UserRecord) (req : LoginRequest)
    (tb : List Nat) (u : UserRecord) (hu : isBlank req.username = false)
    (hp : isBlank req.password = false)
    (hf : store.find? (fun r => r.user_id == req.username) = some u)
    (hv : verify_password req.password u.password = false) :
    execute (.ok store) req tb =
      (ServiceResult.fail "비밀번호가 일치하지 않습니다"
        [("error_type", "ValidationException"), ("username", req.username)], some req.username) := by
  simp [execute, validate_request, hu, hp, find_user_by_username, hf, hv, handle_error,
    AuthError.typeName]

theorem execute_success (store : List UserRecord) (req : LoginRequest)
    (tb : List Nat) (u : UserRecord) (hu : isBlank req.username = false)
    (hp : isBlank req.password = false)
    (hf : store.find? (fun r => r.user_id == req.username) = some u)
    (hv : verify_password req.password u.password = true) :
    execute (.ok store) req tb =
      (ServiceResult.ok
        { user_id := u.user_id, user_name := u.user_name,
          token := generate_temp_token tb, message := "로그인 성공" }
        [("username", req.username), ("user_id", u.user_id)], some req.username) := by
  simp [execute, validate_request, hu, hp, find_user_by_username, hf, hv]

theorem login_fail_eq (m : String) (md : List (String × String)) :
    login (ServiceResult.fail m md) = .err (statusFor m) m := by
  simp only [login, ServiceResult.fail, statusFor, Bool.not_false, if_true,
    Option.getD_some]
  split
  · rfl
  · split <;> rfl

theorem login_ok_eq (body : LoginResponse) (md : List (String × String)) :
    login (ServiceResult.ok body md) = .ok body := by
  simp [login, ServiceResult.ok]

theorem login_fail_blank_username (md : List (String × String)) :
    login (ServiceResult.fail "사용자 ID는 빈 문자열일 수 없습니다" md) =
      .err 400 "사용자 ID는 빈 문자열일 수 없습니다" := by
  rw [login_fail_eq]; decide

theorem login_fail_blank_password (md : List (String × String)) :
    login (ServiceResult.fail "비밀번호는 빈 문자열일 수 없습니다" md) =
      .err 400 "비밀번호는 빈 문자열일 수 없습니다" := by
  rw [login_fail_eq]; decide

theorem login_fail_mismatch (md : List (String × String)) :
    login (ServiceResult.fail "비밀번호가 일치하지 않습니다" md) =
      .err 401 "비밀번호가 일치하지 않습니다" := by
  rw [login_fail_eq]; decide

theorem login_fail_vague (md : List (String × String)) :
    login (ServiceResult.fail "사용자 ID 또는 비밀번호가 올바르지 않습니다" md) =
      .err 401 "사용자 ID 또는 비밀번호가 올바르지 않습니다" := by
  rw [login_fail_eq]; decide

theorem login_fail_generic (md : List (String × String)) :
    login (ServiceResult.fail "로그인 처리 중 오류가 발생했습니다" md) =
      .err 500 "로그인 처리 중 오류가 발생했습니다" := by
  rw [login_fail_eq]; decide

theorem find?_keyed {store : List UserRecord} {rec : UserRecord} {u : String}
    (hmem : rec ∈ store)
    (hkeys : store.Pairwise (fun a b => a.user_id ≠ b.user_id))
    (hid : rec.user_id = u) :
    store.find? (fun r => r.user_id == u) = some rec := by
  induction store with
  | nil => cases hmem
  | cons h t ih =>
    rcases List.mem_cons.mp hmem with rfl | hmem'
    · rw [List.find?_cons_of_pos _ (by simp [hid])]
    · have hph : (h.user_id == u) = false := by
        have hne := (List.pairwise_cons.mp hkeys).1 rec hmem'
        rw [hid] at hne
        simp [hne]
      rw [List.find?_cons_of_neg _ (by simp [hph])]
      exact ih hmem' (List.pairwise_cons.mp hkeys).2

theorem execute_error_cases (db : DbBehavior) (req : LoginRequest) (tb : List Nat) :
    (∃ u : UserRecord, (execute db req tb).1 = ServiceResult.ok
      { user_id := u.user_id, user_name := u.user_name,
        token := generate_temp_token tb, message := "로그인 성공" }
      [("username", req.username), ("user_id", u.user_id)]) ∨
    (∃ m md, (execute db req tb).1 = ServiceResult.fail m md ∧ m ∈ failureMessages ∧
      md.map Prod.fst = ["error_type", "username"] ∧
      md.getD 1 ("", "") = ("username", req.username)) := by
  cases hu : isBlank req.username with
  | true =>
    right
    refine ⟨"사용자 ID는 빈 문자열일 수 없습니다",
      [("error_type", "ValidationException"), ("username", req.username)],
      ?_, by decide, rfl, rfl⟩
    rw [execute_blank_username db req tb hu]
  | false =>
    cases hp : isBlank req.password with
    | true =>
      right
      refine ⟨"비밀번호는 빈 문자열일 수 없습니다",
        [("error_type", "ValidationException"), ("username", req.username)],
        ?_, by decide, rfl, rfl⟩
      rw [execute_blank_password db req tb hu hp]
    | false =>
      cases db with
      | fail e =>
        right
        refine ⟨"로그인 처리 중 오류가 발생했습니다",
          [("error_type", e), ("username", req.username)], ?_, by decide, rfl, rfl⟩
        rw [execute_db_error e req tb hu hp]
      | ok store =>
        cases hf : store.find? (fun r => r.user_id == req.username) with
        | none =>
          right
          refine ⟨"사용자 ID 또는 비밀번호가 올바르지 않습니다",
            [("error_type", "NotFoundException"), ("username", req.username)],
            ?_, by decide, rfl, rfl⟩
          rw [execute_user_absent store req tb hu hp hf]
        | some u =>
          cases hv : verify_password req.password u.password with
          | false =>
            right
            refine ⟨"비밀번호가 일치하지 않습니다",
              [("error_type", "ValidationException"), ("username", req.username)],
              ?_, by decide, rfl, rfl⟩
            rw [execute_wrong_password store req tb u hu hp hf hv]
          | true =>
            left
            refine ⟨u, ?_⟩
            rw [execute_success store req tb u hu hp hf hv]

/-- C8: every envelope `AuthService.execute` returns satisfies the
invariant of the result envelope: success with a payload and no error
message, or failure with an error message and no payload — never both,
never neither. -/
theorem envelope_invariant (db : DbBehavior) (req : LoginRequest) (tb : List Nat) :
    ((execute db req tb).1.success = true ∧ ((execute db req tb).1.data).isSome = true ∧
      (execute db req tb).1.error = none) ∨
    ((execute db req tb).1.success = false ∧ (execute db req tb).1.data = none ∧
      ((execute db req tb).1.error).isSome = true) := by
  rcases execute_error_cases db req tb with ⟨u, heq⟩ | ⟨m, md, heq, _, _, _⟩
  · rw [heq]
    exact Or.inl ⟨rfl, rfl, rfl⟩
  · rw [heq]
    exact Or.inr ⟨rfl, rfl, rfl⟩

/-- C9: a failure envelope of `AuthService.execute` never carries the
submitted password: its error message is one of the five fixed strings,
and its metadata is exactly the error type name paired with the
username — `ValidationException` for the three validation messages,
`NotFoundException` for the vague credentials message, and for the
generic message the exact type name of the database exception that was
raised. -/
theorem failure_messages_fixed_and_metadata_shape (db : DbBehavior)
    (req : LoginRequest) (tb : List Nat)
    (hs : (execute db req tb).1.success = false) :
    (execute db req tb).1.error ≠ none ∧
    ((execute db req tb).1.error.getD "") ∈ failureMessages ∧
    (((execute db req tb).1.metadata =
        [("error_type", "ValidationException"), ("username", req.username)] ∧
       ((execute db req tb).1.error.getD "" = "사용자 ID는 빈 문자열일 수 없습니다" ∨
        (execute db req tb).1.error.getD "" = "비밀번호는 빈 문자열일 수 없습니다" ∨
        (execute db req tb).1.error.getD "" = "비밀번호가 일치하지 않습니다")) ∨
     ((execute db req tb).1.metadata =
        [("error_type", "NotFoundException"), ("username", req.username)] ∧
       (execute db req tb).1.error.getD "" = "사용자 ID 또는 비밀번호가 올바르지 않습니다") ∨
     (db = DbBehavior.fail ((((execute db req tb).1.metadata).getD 0 ("", "")).2) ∧
       (execute db req tb).1.metadata =
         [("error_type", (((execute db req tb).1.metadata).getD 0 ("", "")).2),
          ("username", req.username)] ∧
       (execute db req tb).1.error.getD "" = "로그인 처리 중 오류가 발생했습니다")) := by
  cases hu : isBlank req.username with
  | true =>
    rw [execute_blank_username db req tb hu]
    refine ⟨by simp [ServiceResult.fail], ?_, Or.inl ⟨rfl, Or.inl rfl⟩⟩
    show ("사용자 ID는 빈 문자열일 수 없습니다" : String) ∈ failureMessages
    decide
  | false =>
    cases hp : isBlank req.password with
    | true =>
      rw [execute_blank_password db req tb hu hp]
      refine ⟨by simp [ServiceResult.fail], ?_, Or.inl ⟨rfl, Or.inr (Or.inl rfl)⟩⟩
      show ("비밀번호는 빈 문자열일 수 없습니다" : String) ∈ failureMessages
      decide
    | false =>
      cases db with
      | fail e =>
        rw [execute_db_error e req tb hu hp]
        refine ⟨by simp [ServiceResult.fail], ?_, Or.inr (Or.inr ⟨rfl, rfl, rfl⟩)⟩
        show ("로그인 처리 중 오류가 발생했습니다" : String) ∈ failureMessages
        decide
      | ok store =>
        cases hf : store.find? (fun r => r.user_id == req.username) with
        | none =>
          rw [execute_user_absent store req tb hu hp hf]
          refine ⟨by simp [ServiceResult.fail], ?_, Or.inr (Or.inl ⟨rfl, rfl⟩)⟩
          show ("사용자 ID 또는 비밀번호가 올바르지 않습니다" : String) ∈ failureMessages
          decide
        | some u =>
          cases hv : verify_password req.password u.password with
          | false =>
            rw [execute_wrong_password store req tb u hu hp hf hv]
            refine ⟨by simp [ServiceResult.fail], ?_, Or.inl ⟨rfl, Or.inr (Or.inr rfl)⟩⟩
            show ("비밀번호가 일치하지 않습니다" : String) ∈ failureMessages
            decide
          | true =>
            rw [execute_success store req tb u hu hp hf hv] at hs
            exact absurd hs (by simp [ServiceResult.ok])

/-- Closed instance of `failure_messages_fixed_and_metadata_shape` at the
wrong-password request of the spec scenario: the envelope carries the
fixed mismatch message and the metadata is exactly
`ValidationException` / `user001`. -/
theorem failure_messages_fixed_and_metadata_shape_witness :
    (execute (.ok sampleStore) { username := "user001", password := "wrong" } []).1.error
      ≠ none ∧
    ((execute (.ok sampleStore)
        { username := "user001", password := "wrong" } []).1.error.getD "")
      ∈ failureMessages ∧
    (((execute (.ok sampleStore)
        { username := "user001", password := "wrong" } []).1.metadata =
        [("error_type", "ValidationException"), ("username", "user001")] ∧
       ((execute (.ok sampleStore)
          { username := "user001", password := "wrong" } []).1.error.getD ""
          = "사용자 ID는 빈 문자열일 수 없습니다" ∨
        (execute (.ok sampleStore)
          { username := "user001", password := "wrong" } []).1.error.getD ""
          = "비밀번호는 빈 문자열일 수 없습니다" ∨
        (execute (.ok sampleStore)
          { username := "user001", password := "wrong" } []).1.error.getD ""
          = "비밀번호가 일치하지 않습니다")) ∨
     ((execute (.ok sampleStore)
        { username := "user001", password := "wrong" } []).1.metadata =
        [("error_type", "NotFoundException"), ("username", "user001")] ∧
       (execute (.ok sampleStore)
         { username := "user001", password := "wrong" } []).1.error.getD ""
         = "사용자 ID 또는 비밀번호가 올바르지 않습니다") ∨
     ((DbBehavior.ok sampleStore) = DbBehavior.fail
        ((((execute (.ok sampleStore)
            { username := "user001", password := "wrong" } []).1.metadata).getD
          0 ("", "")).2) ∧
       (execute (.ok sampleStore)
         { username := "user001", password := "wrong" } []).1.metadata =
         [("error_type",
           (((execute (.ok sampleStore)
               { username := "user001", password := "wrong" } []).1.metadata).getD
             0 ("", "")).2),
          ("username", "user001")] ∧
       (execute (.ok sampleStore)
         { username := "user001", password := "wrong" } []).1.error.getD ""
         = "로그인 처리 중 오류가 발생했습니다")) :=
  failure_messages_fixed_and_metadata_shape (.ok sampleStore)
    { username := "user001", password := "wrong" } [] (by decide)

/-- C1 counterexample: on the scenario store, a wrong password and an
unknown user both yield HTTP 401, but the response bodies differ —
`비밀번호가 일치하지 않습니다` (a `ValidationException`'s own message passed
through `handle_error`) versus the vague
`사용자 ID 또는 비밀번호가 올바르지 않습니다` — so the claim that both cases
carry the same failure message text is false, and a client can tell a
nonexistent user from a wrong password. -/
theorem auth_failure_messages_differ :
    loginEndpoint (.ok sampleStore) { username := "user001", password := "wrong" } [] =
      .err 401 "비밀번호가 일치하지 않습니다" ∧
    loginEndpoint (.ok sampleStore) { username := "ghost", password := "x" } [] =
      .err 401 "사용자 ID 또는 비밀번호가 올바르지 않습니다" ∧
    ("비밀번호가 일치하지 않습니다" : String) ≠ "사용자 ID 또는 비밀번호가 올바르지 않습니다" := by
  refine ⟨by decide, by decide, by decide⟩

/-- C1 (amended): both the unknown-user case and the wrong-password case
return HTTP 401, but with the two different message texts shown; the
anti-enumeration property holds for the status code only, not for the
body. -/
theorem both_auth_failure_modes_return_401 (store : List UserRecord)
    (req : LoginRequest) (tb : List Nat) (hu : isBlank req.username = false)
    (hp : isBlank req.password = false) :
    (store.find? (fun r => r.user_id == req.username) = none →
      loginEndpoint (.ok store) req tb =
        .err 401 "사용자 ID 또는 비밀번호가 올바르지 않습니다") ∧
    (∀ u : UserRecord, store.find? (fun r => r.user_id == req.username) = some u →
      verify_password req.password u.password = false →
      loginEndpoint (.ok store) req tb = .err 401 "비밀번호가 일치하지 않습니다") := by
  constructor
  · intro hf
    unfold loginEndpoint
    rw [execute_user_absent store req tb hu hp hf]
    exact login_fail_vague _
  · intro u hf hv
    unfold loginEndpoint
    rw [execute_wrong_password store req tb u hu hp hf hv]
    exact login_fail_mismatch _

/-- Closed instance of `both_auth_failure_modes_return_401` on the
scenario store, for the unknown-user and the wrong-password request. -/
theorem both_auth_failure_modes_return_401_witness :
    loginEndpoint (.ok sampleStore) { username := "ghost", password := "x" } [] =
      .err 401 "사용자 ID 또는 비밀번호가 올바르지 않습니다" ∧
    loginEndpoint (.ok sampleStore) { username := "user001", password := "wrong" } [] =
      .err 401 "비밀번호가 일치하지 않습니다" :=
  ⟨(both_auth_failure_modes_return_401 sampleStore
      { username := "ghost", password := "x" } [] (by decide) (by decide)).1 (by decide),
   (both_auth_failure_modes_return_401 sampleStore
      { username := "user001", password := "wrong" } [] (by decide) (by decide)).2
     { user_id := "user001", password := "password123", user_name := "홍길동" }
     (by decide) (by decide)⟩

/-- C2: with non-blank credentials and a store keyed by user id holding
a record whose `USER_ID` equals the submitted username and whose stored
password is string-equal to the submitted password, `execute` returns
the success envelope carrying that record's `user_id` and `user_name`,
the generated token and the message `로그인 성공`, and the endpoint
returns the body with HTTP 200. -/
theorem successful_login_returns_record_and_token (store : List UserRecord)
    (rec : UserRecord) (req : LoginRequest) (tb : List Nat)
    (hu : isBlank req.username = false) (hp : isBlank req.password = false)
    (hkeys : store.Pairwise (fun a b => a.user_id ≠ b.user_id))
    (hmem : rec ∈ store) (hid : rec.user_id = req.username)
    (hpw : rec.password = req.password) :
    execute (.ok store) req tb =
      (ServiceResult.ok
        { user_id := rec.user_id, user_name := rec.user_name,
          token := generate_temp_token tb, message := "로그인 성공" }
        [("username", req.username), ("user_id", rec.user_id)], some req.username) ∧
    loginEndpoint (.ok store) req tb =
      .ok { user_id := rec.user_id, user_name := rec.user_name,
            token := generate_temp_token tb, message := "로그인 성공" } := by
  have hf := find?_keyed hmem hkeys hid
  have hv : verify_password req.password rec.password = true := by
    simp [verify_password, hpw]
  have hex := execute_success store req tb rec hu hp hf hv
  refine ⟨hex, ?_⟩
  unfold loginEndpoint
  rw [hex]
  exact login_ok_eq _ _

/-- Closed instance of `successful_login_returns_record_and_token`: the
spec's scenario `user001 / password123` against the record
`user001 / password123 / 홍길동` yields 200 with user name `홍길동`. -/
theorem successful_login_returns_record_and_token_witness :
    loginEndpoint (.ok sampleStore) { username := "user001", password := "password123" } [] =
      .ok { user_id := "user001", user_name := "홍길동",
            token := generate_temp_token [], message := "로그인 성공" } :=
  (successful_login_returns_record_and_token sampleStore
    { user_id := "user001", password := "password123", user_name := "홍길동" }
    { username := "user001", password := "password123" } []
    (by decide) (by decide) (by simp [sampleStore]) (by simp [sampleStore]) rfl rfl).2

/-- C3: a request with a blank (empty or whitespace-only) username or
password produces a validation failure whose message contains
`빈 문자열`, the endpoint maps it to HTTP 400, and the repository lookup
is never invoked for that request. -/
theorem blank_credentials_rejected_before_lookup (db : DbBehavior)
    (req : LoginRequest) (tb : List Nat)
    (h : isBlank req.username = true ∨ isBlank req.password = true) :
    (execute db req tb).2 = none ∧
    (execute db req tb).1.success = false ∧
    strContains ((execute db req tb).1.error.getD "") "빈 문자열" = true ∧
    login (execute db req tb).1 = .err 400 ((execute db req tb).1.error.getD "") := by
  by_cases hu : isBlank req.username = true
  · rw [execute_blank_username db req tb hu]
    refine ⟨rfl, rfl, ?_, ?_⟩
    · show strContains "사용자 ID는 빈 문자열일 수 없습니다" "빈 문자열" = true
      decide
    · exact login_fail_blank_username _
  · have hu' : isBlank req.username = false := by
      cases hq : isBlank req.username
      · rfl
      · exact absurd hq hu
    have hp : isBlank req.password = true := h.resolve_left hu
    rw [execute_blank_password db req tb hu' hp]
    refine ⟨rfl, rfl, ?_, ?_⟩
    · show strContains "비밀번호는 빈 문자열일 수 없습니다" "빈 문자열" = true
      decide
    · exact login_fail_blank_password _

/-- Closed instance of `blank_credentials_rejected_before_lookup` at the
spec's scenario request with the empty username. -/
theorem blank_credentials_rejected_before_lookup_witness :
    (execute (.ok sampleStore) { username := "", password := "x" } []).2 = none ∧
    (execute (.ok sampleStore) { username := "", password := "x" } []).1.success = false ∧
    strContains ((execute (.ok sampleStore) { username := "", password := "x" } []).1.error.getD "")
      "빈 문자열" = true ∧
    login (execute (.ok sampleStore) { username := "", password := "x" } []).1 =
      .err 400 ((execute (.ok sampleStore) { username := "", password := "x" } []).1.error.getD "") :=
  blank_credentials_rejected_before_lookup (.ok sampleStore)
    { username := "", password := "x" } [] (Or.inl (by decide))

/-- C4: on every failure envelope of `execute`, the endpoint's status is
the substring dispatch `statusFor` of the envelope's message alone
(credential substrings give 401, the empty-string substring 400,
anything else 500), the detail is that message, and the dispatch never
produces a status outside 400, 401, 500. -/
theorem failure_status_chosen_by_message_substrings (db : DbBehavior)
    (req : LoginRequest) (tb : List Nat) (m : String)
    (hm : (execute db req tb).1.error = some m) :
    login (execute db req tb).1 = .err (statusFor m) m ∧
    (statusFor m = 400 ∨ statusFor m = 401 ∨ statusFor m = 500) := by
  have htri : statusFor m = 400 ∨ statusFor m = 401 ∨ statusFor m = 500 := by
    unfold statusFor
    split
    · exact Or.inr (Or.inl rfl)
    · split
      · exact Or.inl rfl
      · exact Or.inr (Or.inr rfl)
  rcases execute_error_cases db req tb with ⟨u, heq⟩ | ⟨m', md, heq, _, _, _⟩
  · rw [heq] at hm
    exact absurd hm (by simp [ServiceResult.ok])
  · rw [heq] at hm
    have hmm : m' = m := by
      simpa [ServiceResult.fail] using hm
    subst hmm
    rw [heq]
    exact ⟨login_fail_eq m' md, htri⟩

/-- Closed instance of `failure_status_chosen_by_message_substrings` at
the empty-username request; together with the other witnesses this
exhibits all three reachable statuses 400, 401 and 500. -/
theorem failure_status_chosen_by_message_substrings_witness :
    login (execute (.ok sampleStore) { username := "", password := "x" } []).1 =
      .err (statusFor "사용자 ID는 빈 문자열일 수 없습니다") "사용자 ID는 빈 문자열일 수 없습니다" ∧
    (statusFor "사용자 ID는 빈 문자열일 수 없습니다" = 400 ∨
     statusFor "사용자 ID는 빈 문자열일 수 없습니다" = 401 ∨
     statusFor "사용자 ID는 빈 문자열일 수 없습니다" = 500) :=
  failure_status_chosen_by_message_substrings (.ok sampleStore)
    { username := "", password := "x" } [] "사용자 ID는 빈 문자열일 수 없습니다" (by decide)

/-- C5: for a username matching no stored record, the repository returns
the explicit absence `none` (an `Except.ok`, not an error), `execute`
turns it into a failure envelope with the vague message
`사용자 ID 또는 비밀번호가 올바르지 않습니다`, and the endpoint maps it to
HTTP 401. -/
theorem unknown_user_gets_vague_401 (store : List UserRecord)
    (req : LoginRequest) (tb : List Nat) (hu : isBlank req.username = false)
    (hp : isBlank req.password = false)
    (habs : ∀ r ∈ store, r.user_id ≠ req.username) :
    find_user_by_username (.ok store) req.username = .ok none ∧
    (execute (.ok store) req tb).1 =
      ServiceResult.fail "사용자 ID 또는 비밀번호가 올바르지 않습니다"
        [("error_type", "NotFoundException"), ("username", req.username)] ∧
    loginEndpoint (.ok store) req tb =
      .err 401 "사용자 ID 또는 비밀번호가 올바르지 않습니다" := by
  have hf : store.find? (fun r => r.user_id == req.username) = none :=
    List.find?_eq_none.mpr (fun r hr => by simp [habs r hr])
  refine ⟨by simp [find_user_by_username, hf], ?_, ?_⟩
  · rw [execute_user_absent store req tb hu hp hf]
  · unfold loginEndpoint
    rw [execute_user_absent store req tb hu hp hf]
    exact login_fail_vague _

/-- Closed instance of `unknown_user_gets_vague_401` at the spec's
scenario request `ghost / x`. -/
theorem unknown_user_gets_vague_401_witness :
    find_user_by_username (.ok sampleStore) "ghost" = .ok none ∧
    (execute (.ok sampleStore) { username := "ghost", password := "x" } []).1 =
      ServiceResult.fail "사용자 ID 또는 비밀번호가 올바르지 않습니다"
        [("error_type", "NotFoundException"), ("username", "ghost")] ∧
    loginEndpoint (.ok sampleStore) { username := "ghost", password := "x" } [] =
      .err 401 "사용자 ID 또는 비밀번호가 올바르지 않습니다" :=
  unknown_user_gets_vague_401 sampleStore { username := "ghost", password := "x" } []
    (by decide) (by decide) (by decide)

/-- C6 counterexample: uniqueness of tokens across calls is not
unconditional — two calls whose 32 random bytes coincide (each draw,
including the all-zero one, is a possible output of the OS entropy
source) return the same token, so "no two calls return the same token"
fails for any pair of calls that happens to repeat a draw. -/
theorem identical_draws_collide :
    generate_temp_token (List.replicate 32 0) =
      generate_temp_token (List.replicate 32 0) := rfl

/-- C6 (amended): every token is the fixed prefix `temp_token_` followed
by the padding-stripped URL-safe base64 encoding of the 32 drawn random
bytes, and two calls whose draws differ return different tokens (the
encoding is injective on byte sequences); uniqueness beyond that is
probabilistic, not absolute. -/
theorem token_prefixed_and_injective_in_draw (b1 b2 : List Nat)
    (h1 : ∀ b ∈ b1, b < 256) (h2 : ∀ b ∈ b2, b < 256) (hne : b1 ≠ b2) :
    (generate_temp_token b1).toList =
      "temp_token_".toList ++ (urlsafeNoPad b1).toList ∧
    generate_temp_token b1 ≠ generate_temp_token b2 := by
  refine ⟨?_, fun he => hne (generate_temp_token_inj b1 b2 h1 h2 he)⟩
  show (generate_temp_token b1).data = "temp_token_".data ++ (urlsafeNoPad b1).data
  simp [generate_temp_token, String.data_append]

/-- Closed instance of `token_prefixed_and_injective_in_draw` at the
all-zero draw and the draw `0,1,...,31`. -/
theorem token_prefixed_and_injective_in_draw_witness :
    (generate_temp_token (List.replicate 32 0)).toList =
      "temp_token_".toList ++ (urlsafeNoPad (List.replicate 32 0)).toList ∧
    generate_temp_token (List.replicate 32 0) ≠ generate_temp_token (List.range 32) :=
  token_prefixed_and_injective_in_draw (List.replicate 32 0) (List.range 32)
    (by decide) (by decide) (by decide)

/-- C7: a database exception is re-raised by the repository as a
distinct error condition (an `Except.error`, never collapsed into the
`not found` absence), `execute` catches it at the orchestration boundary
and converts it into a failure envelope with the generic message
`로그인 처리 중 오류가 발생했습니다` and the exception's type name in the
metadata, and the endpoint maps it to HTTP 500 — no exception reaches
the caller. -/
theorem database_failure_converted_to_500 (excName : String)
    (req : LoginRequest) (tb : List Nat) (hu : isBlank req.username = false)
    (hp : isBlank req.password = false) :
    find_user_by_username (.fail excName) req.username = .error excName ∧
    find_user_by_username (.fail excName) req.username ≠ .ok none ∧
    (execute (.fail excName) req tb).1 =
      ServiceResult.fail "로그인 처리 중 오류가 발생했습니다"
        [("error_type", excName), ("username", req.username)] ∧
    loginEndpoint (.fail excName) req tb =
      .err 500 "로그인 처리 중 오류가 발생했습니다" := by
  refine ⟨rfl, by simp [find_user_by_username], ?_, ?_⟩
  · rw [execute_db_error excName req tb hu hp]
  · unfold loginEndpoint
    rw [execute_db_error excName req tb hu hp]
    exact login_fail_generic _

/-- Closed instance of `database_failure_converted_to_500` for an Oracle
`OperationalError` during the scenario request. -/
theorem database_failure_converted_to_500_witness :
    find_user_by_username (.fail "OperationalError") "user001" = .error "OperationalError" ∧
    find_user_by_username (.fail "OperationalError") "user001" ≠ .ok none ∧
    (execute (.fail "OperationalError")
      { username := "user001", password := "password123" } []).1 =
      ServiceResult.fail "로그인 처리 중 오류가 발생했습니다"
        [("error_type", "OperationalError"), ("username", "user001")] ∧
    loginEndpoint (.fail "OperationalError")
      { username := "user001", password := "password123" } [] =
      .err 500 "로그인 처리 중 오류가 발생했습니다" :=
  database_failure_converted_to_500 "OperationalError"
    { username := "user001", password := "password123" } [] (by decide) (by decide)

/-- C10 counterexample: a request whose username contains a
non-whitespace character but whose password is whitespace-only fails
validation, so the lookup is never invoked — the claim that a
non-whitespace username alone makes validation pass is false. -/
theorem nonblank_username_alone_does_not_pass_validation :
    isBlank " user001 " = false ∧
    (execute (.ok sampleStore) { username := " user001 ", password := " " } []).2 = none ∧
    (execute (.ok sampleStore) { username := " user001 ", password := " " } []).1.success
      = false := by
  refine ⟨by decide, by decide, by decide⟩

/-- C10 (amended): whenever both the username and the password contain a
non-whitespace character, validation passes and the repository lookup is
invoked with the exact submitted username — verbatim, no trimming or
normalization. -/
theorem lookup_receives_verbatim_username (db : DbBehavior)
    (req : LoginRequest) (tb : List Nat) (hu : isBlank req.username = false)
    (hp : isBlank req.password = false) :
    (execute db req tb).2 = some req.username := by
  cases db with
  | fail e => rw [execute_db_error e req tb hu hp]
  | ok store =>
    cases hf : store.find? (fun r => r.user_id == req.username) with
    | none => rw [execute_user_absent store req tb hu hp hf]
    | some u =>
      cases hv : verify_password req.password u.password with
      | false => rw [execute_wrong_password store req tb u hu hp hf hv]
      | true => rw [execute_success store req tb u hu hp hf hv]

/-- Closed instance of `lookup_receives_verbatim_username`: the
untrimmed username ` user001 ` is handed to the lookup as submitted, and
consequently misses the stored record `user001`, yielding the not-found
envelope. -/
theorem lookup_receives_verbatim_username_witness :
    (execute (.ok sampleStore) { username := " user001 ", password := "x" } []).2 =
      some " user001 " ∧
    (execute (.ok sampleStore) { username := " user001 ", password := "x" } []).1.error =
      some "사용자 ID 또는 비밀번호가 올바르지 않습니다" :=
  ⟨lookup_receives_verbatim_username (.ok sampleStore)
    { username := " user001 ", password := "x" } [] (by decide) (by decide),
   by decide⟩
